import Mathlib

/-!
Verification development for the csv_to_rds repository
(`csv_to_rds/csv_to_rds.py`).  The Python source is shallowly embedded:
pure helpers become Lean functions on `String`/`List`; the effectful parts
(database driver calls, the file system, the pandas CSV parser) are made
explicit as oracle parameters and event traces, so every embedded
operation is an executable Lean function.
-/

set_option maxRecDepth 10000
set_option maxHeartbeats 1000000

/-! ## String helpers (Python `str` methods used by the source) -/

/-- Python `str.lower()` restricted to the ASCII fragment the source
exercises: `Char.toLower` applied to every character. -/
def pyLower (s : String) : String := String.mk (s.data.map Char.toLower)

/-- Python `str.replace(old, new)` for a one-character pattern and a
one-character replacement: every occurrence is replaced. -/
def pyReplaceChar (s : String) (old new : Char) : String :=
  String.mk (s.data.map fun c => if c = old then new else c)

/-- Python `str.strip()`: remove leading and trailing whitespace. -/
def pyStrip (s : String) : String :=
  String.mk (((s.data.dropWhile Char.isWhitespace).reverse.dropWhile
    Char.isWhitespace).reverse)

/-- The per-column transformation of `clean_column_names`
(csv_to_rds.py lines 301-306):
`col.lower().replace(' ', '_').replace('-', '_').replace('.', '_')`. -/
def cleanOne (col : String) : String :=
  pyReplaceChar (pyReplaceChar (pyReplaceChar (pyLower col) ' ' '_') '-' '_') '.' '_'

/-- `clean_column_names` (csv_to_rds.py lines 291-307): the list
comprehension applying `cleanOne` to every label. -/
def clean_column_names (columns : List String) : List String :=
  columns.map cleanOne

/-- The composed per-character action of `cleanOne`. -/
def cleanChar (c : Char) : Char :=
  let d := c.toLower
  let d := if d = ' ' then '_' else d
  let d := if d = '-' then '_' else d
  if d = '.' then '_' else d

theorem cleanOne_data (s : String) : (cleanOne s).data = s.data.map cleanChar := by
  simp only [cleanOne, pyLower, pyReplaceChar, List.map_map]
  rfl

/-- Case analysis on `Char.toLower`: outside the ASCII uppercase range it
is the identity; on it, the result lands in the ASCII lowercase range. -/
theorem char_toLower_spec (c : Char) :
    ((c.toNat < 65 ∨ 90 < c.toNat) ∧ c.toLower = c) ∨
    (65 ≤ c.toNat ∧ c.toNat ≤ 90 ∧ 97 ≤ c.toLower.toNat ∧ c.toLower.toNat ≤ 122) := by
  by_cases h : 65 ≤ c.toNat ∧ c.toNat ≤ 90
  · right
    have hl : c.toLower = Char.ofNat (c.toNat + 32) := by
      simp only [Char.toLower]
      rw [if_pos ⟨h.1, h.2⟩]
    refine ⟨h.1, h.2, ?_⟩
    rw [hl]
    obtain ⟨h1, h2⟩ := h
    generalize c.toNat = n at h1 h2
    interval_cases n <;> exact ⟨by decide, by decide⟩
  · left
    refine ⟨by omega, ?_⟩
    simp only [Char.toLower]
    rw [if_neg]
    intro hc
    exact h ⟨hc.1, hc.2⟩

theorem char_toLower_idem (c : Char) : c.toLower.toLower = c.toLower := by
  rcases char_toLower_spec c with ⟨_, h⟩ | ⟨_, _, h3, h4⟩
  · rw [h, h]
  · rcases char_toLower_spec c.toLower with ⟨_, h'⟩ | ⟨h5, h6, _⟩
    · exact h'
    · omega

theorem cleanChar_cases (c : Char) :
    cleanChar c = '_' ∨
    (cleanChar c = c.toLower ∧ c.toLower ≠ ' ' ∧ c.toLower ≠ '-' ∧ c.toLower ≠ '.') := by
  by_cases h1 : c.toLower = ' '
  · left; simp [cleanChar, h1]
  · by_cases h2 : c.toLower = '-'
    · left; simp [cleanChar, h2]
    · by_cases h3 : c.toLower = '.'
      · left; simp [cleanChar, h3]
      · right; exact ⟨by simp [cleanChar, h1, h2, h3], h1, h2, h3⟩

theorem cleanChar_idem (c : Char) : cleanChar (cleanChar c) = cleanChar c := by
  rcases cleanChar_cases c with h | ⟨h, h1, h2, h3⟩
  · rw [h]; decide
  · rw [h]
    simp [cleanChar, char_toLower_idem c, h1, h2, h3]

theorem cleanOne_idem (s : String) : cleanOne (cleanOne s) = cleanOne s := by
  apply String.ext
  rw [cleanOne_data, cleanOne_data]
  induction s.data with
  | nil => rfl
  | cons c l ih => simp only [List.map_cons, ih, cleanChar_idem c]

/-- Character-level property of the normalizer output: no space, no dash,
no dot, and no ASCII uppercase letter survives. -/
theorem cleanChar_out (c : Char) :
    cleanChar c ≠ ' ' ∧ cleanChar c ≠ '-' ∧ cleanChar c ≠ '.' ∧
    ¬(65 ≤ (cleanChar c).toNat ∧ (cleanChar c).toNat ≤ 90) := by
  rcases cleanChar_cases c with h | ⟨h, h1, h2, h3⟩
  · rw [h]; refine ⟨by decide, by decide, by decide, by decide⟩
  · rw [h]
    refine ⟨h1, h2, h3, ?_⟩
    rcases char_toLower_spec c with ⟨hr, heq⟩ | ⟨_, _, h5, h6⟩
    · rw [heq]; omega
    · omega

/-- C4 counterexample: the claim says every output of `clean_column_names`
contains no whitespace, but only the space character is replaced; on the
label "a\tb" the tab character survives, so the output still contains a
whitespace character. -/
theorem clean_column_names_whitespace_counterexample :
    clean_column_names ["a\tb"] = ["a\tb"] ∧
    ((clean_column_names ["a\tb"]).any fun s => s.data.any Char.isWhitespace) = true := by
  constructor
  · decide
  · decide

/-- C4 (amended): `clean_column_names` is a pure total function producing a
list of the same length, positionally 1:1 and order-preserving; every
output string contains no space, no '-', no '.' (each replaced by '_') and
no ASCII uppercase letter; other whitespace such as tab is preserved.  The
labels ["Country", "Order Priority"] map to ["country", "order_priority"]. -/
theorem clean_column_names_spec (labels : List String) :
    (clean_column_names labels).length = labels.length ∧
    (∀ i : Nat, (clean_column_names labels)[i]? = (labels[i]?).map cleanOne) ∧
    (∀ s ∈ clean_column_names labels, ∀ c ∈ s.data,
      c ≠ ' ' ∧ c ≠ '-' ∧ c ≠ '.' ∧ ¬(65 ≤ c.toNat ∧ c.toNat ≤ 90)) ∧
    clean_column_names ["Country", "Order Priority"] = ["country", "order_priority"] := by
  refine ⟨by simp [clean_column_names], ?_, ?_, by decide⟩
  · intro i
    simp [clean_column_names]
  · intro s hs c hc
    rcases List.mem_map.mp hs with ⟨t, _, rfl⟩
    rw [cleanOne_data] at hc
    rcases List.mem_map.mp hc with ⟨d, _, rfl⟩
    exact cleanChar_out d

/-- Witness for C4 (amended) at a concrete input. -/
theorem clean_column_names_spec_witness :
    clean_column_names ["Country", "Order Priority"] = ["country", "order_priority"] :=
  (clean_column_names_spec []).2.2.2

/-- C9: clean_column_names is idempotent: applying the normalization twice
gives the same result as applying it once. -/
theorem clean_column_names_idempotent (x : List String) :
    clean_column_names (clean_column_names x) = clean_column_names x := by
  unfold clean_column_names
  induction x with
  | nil => rfl
  | cons s l ih => simp only [List.map_cons, cleanOne_idem s, ih]

/-! ## Data model: DataFrame, errors, database events -/

abbrev Row := List String

/-- pandas DataFrame: an ordered list of column labels plus row-major data. -/
structure DataFrame where
  cols : List String
  rows : List Row
deriving DecidableEq

/-- pandas `df.head(0)`: the zero-row projection keeping the column set. -/
def DataFrame.head0 (df : DataFrame) : DataFrame := { cols := df.cols, rows := [] }

/-- pandas `df.empty`: true when either axis has length zero. -/
def DataFrame.emptyDf (df : DataFrame) : Bool := df.rows.isEmpty || df.cols.isEmpty

/-- The three exception classes of csv_to_rds.py, plus a case for foreign
exceptions (e.g. pandas parse errors) that propagate unchanged. -/
inductive PyErr
  | configurationError (msg : String)
  | databaseError (msg : String)
  | validationError (msg : String)
  | foreignError (msg : String)
deriving DecidableEq

instance {ε α : Type} [DecidableEq ε] [DecidableEq α] : DecidableEq (Except ε α) := fun x y =>
  match x, y with
  | .ok a, .ok b =>
    if h : a = b then isTrue (by rw [h]) else isFalse (by intro he; cases he; exact h rfl)
  | .error a, .error b =>
    if h : a = b then isTrue (by rw [h]) else isFalse (by intro he; cases he; exact h rfl)
  | .ok _, .error _ => isFalse (by intro h; cases h)
  | .error _, .ok _ => isFalse (by intro h; cases h)

/-- Python `str(e)`: the message carried by the exception. -/
def PyErr.message : PyErr → String
  | .configurationError m => m
  | .databaseError m => m
  | .validationError m => m
  | .foreignError m => m

/-- Observable actions committed against the database by the loader. -/
inductive DBEvent
  | createTable (table : String) (schema : DataFrame)
  | insertRows (table : String) (cols : List String) (rows : List Row)
deriving DecidableEq

def DBEvent.isCreate : DBEvent → Bool
  | .createTable _ _ => true
  | .insertRows _ _ _ => false

/-- Semantics of the events on the destination table:
`to_sql(if_exists='replace')` on `df.head(0)` drops any existing table and
recreates it from the schema frame; a committed batch insert appends. -/
def applyEvent (t : Option DataFrame) : DBEvent → Option DataFrame
  | .createTable _ schema => some { cols := schema.cols, rows := schema.rows }
  | .insertRows _ _ rows =>
    match t with
    | some tb => some { tb with rows := tb.rows ++ rows }
    | none => none

/-! ## Chunking (the loop `for i in range(0, len(data), chunk_size)`) -/

/-- Fuel-indexed worker for `pyChunks`, structurally recursive so that the
kernel can evaluate it; the fuel is always instantiated with the list
length, which suffices because every step with `1 ≤ cs` drops at least one
element. -/
def pyChunksF : Nat → Nat → List α → List (List α)
  | 0, _, _ => []
  | _ + 1, _, [] => []
  | fuel + 1, cs, x :: xs => (x :: xs).take cs :: pyChunksF fuel cs ((x :: xs).drop cs)

/-- The row slices taken by
`for i in range(0, len(data), chunk_size): data.iloc[i:i+chunk_size]`
(csv_to_rds.py lines 243-244): contiguous batches of `cs` rows, the last
possibly shorter.  With `cs = 0` Python's `range` raises ValueError; the
value here is a placeholder and every theorem assumes `1 ≤ cs`. -/
def pyChunks (cs : Nat) (xs : List α) : List (List α) :=
  if cs = 0 then [] else pyChunksF xs.length cs xs

namespace DatabaseManager

/-- Driver outcome oracle for the k-th `_insert_dataframe` call:
`none` = `executemany` and `commit` succeed, `some msg` = driver
exception with message `msg`. -/
def DriverOracle := Nat → Option String

/-- `_insert_dataframe` (csv_to_rds.py lines 173-210) under driver outcome
`err`: on success the batch is one committed multi-row insert statement
and the row count is returned; on failure the exception is wrapped as
`DatabaseError("Failed to insert data: ...")` and nothing is committed. -/
def insert_dataframe (err : Option String) (df : DataFrame) (table_name : String) :
    Except PyErr (Nat × DBEvent) :=
  match err with
  | some m => .error (.databaseError ("Failed to insert data: " ++ m))
  | none => .ok (df.rows.length, .insertRows table_name df.cols df.rows)

/-- `_create_table_if_needed` (csv_to_rds.py lines 161-171): only the
'replace' policy takes a schema action, re-creating the table from
`df.head(0)`. -/
def create_table_if_needed (df : DataFrame) (table_name if_exists : String) :
    List DBEvent :=
  if if_exists = "replace" then [.createTable table_name df.head0] else []

/-- The chunk loop of `load_data_in_chunks` (csv_to_rds.py lines 243-254):
insert each chunk in order, adding `len(chunk)` to the running total only
after that chunk's insertion call returns without error, stopping at the
first driver failure.  `k` is the index of the next insert call. -/
def loadChunks (oracle : DriverOracle) (table : String) (cols : List String) :
    List (List Row) → Nat → Nat → Except PyErr Nat × List DBEvent
  | [], _, total => (.ok total, [])
  | c :: rest, k, total =>
    match insert_dataframe (oracle k) { cols := cols, rows := c } table with
    | .error e => (.error e, [])
    | .ok (_, ev) =>
      let r := loadChunks oracle table cols rest (k + 1) (total + c.length)
      (r.1, ev :: r.2)

structure LoadOutcome where
  result : Except PyErr Nat
  data : DataFrame
  events : List DBEvent
deriving DecidableEq

/-- Column cleaning on csv_to_rds.py line 237:
`str(col).strip().replace(' ', '_').lower()`. -/
def loadCleanCol (s : String) : String :=
  pyLower (pyReplaceChar (pyStrip s) ' ' '_')

/-- `load_data_in_chunks` (csv_to_rds.py lines 212-258).  `engine` is the
`_engine` field (None before `connect` and after `close`); `oracle` gives
each insert call's driver outcome.  The returned `data` is the caller's
DataFrame after the in-place column rename; `events` are the committed
database actions, in order. -/
def load_data_in_chunks (engine : Option Unit) (oracle : DriverOracle)
    (data : DataFrame) (table_name : String) (chunk_size : Nat)
    (if_exists : String) : LoadOutcome :=
  match engine with
  | none =>
    { result := .error (.databaseError "Database connection not initialized"),
      data := data, events := [] }
  | some _ =>
    let cleaned : DataFrame := { cols := data.cols.map loadCleanCol, rows := data.rows }
    let created := create_table_if_needed cleaned table_name if_exists
    let r := loadChunks oracle table_name cleaned.cols (pyChunks chunk_size cleaned.rows) 0 0
    { result := r.1.mapError fun e => .databaseError ("Failed to load data: " ++ e.message),
      data := cleaned, events := created ++ r.2 }

/-- `close` (csv_to_rds.py lines 260-264): dispose the engine and reset
the `_engine` field to None. -/
def close (_engine : Option Unit) : Option Unit := none

end DatabaseManager


/-! ## Lemmas about the chunk decomposition -/

theorem pyChunksF_nil (fuel cs : Nat) : pyChunksF fuel cs ([] : List α) = [] := by
  cases fuel <;> rfl

theorem pyChunksF_congr (cs : Nat) (hcs : cs ≠ 0) :
    ∀ (fuel₁ fuel₂ : Nat) (xs : List α), xs.length ≤ fuel₁ → xs.length ≤ fuel₂ →
      pyChunksF fuel₁ cs xs = pyChunksF fuel₂ cs xs := by
  intro fuel₁
  induction fuel₁ with
  | zero =>
    intro fuel₂ xs h₁ _
    rw [List.length_eq_zero.mp (Nat.le_zero.mp h₁)]
    rw [pyChunksF_nil, pyChunksF_nil]
  | succ n ih =>
    intro fuel₂ xs h₁ h₂
    cases xs with
    | nil => rw [pyChunksF_nil, pyChunksF_nil]
    | cons x xs' =>
      cases fuel₂ with
      | zero => simp at h₂
      | succ m =>
        simp only [pyChunksF]
        congr 1
        apply ih
        · simp only [List.length_drop, List.length_cons]
          simp only [List.length_cons] at h₁
          omega
        · simp only [List.length_drop, List.length_cons]
          simp only [List.length_cons] at h₂
          omega

theorem pyChunks_nil (cs : Nat) : pyChunks cs ([] : List α) = [] := by
  unfold pyChunks
  split
  · rfl
  · rfl

theorem pyChunks_cons (cs : Nat) (hcs : cs ≠ 0) (x : α) (xs : List α) :
    pyChunks cs (x :: xs) = (x :: xs).take cs :: pyChunks cs ((x :: xs).drop cs) := by
  unfold pyChunks
  rw [if_neg hcs, if_neg hcs]
  simp only [List.length_cons, pyChunksF]
  congr 1
  apply pyChunksF_congr cs hcs
  · simp only [List.length_drop, List.length_cons]; omega
  · exact Nat.le_refl _

theorem pyChunks_ne_nil (cs : Nat) (hcs : cs ≠ 0) (x : α) (xs : List α) :
    pyChunks cs (x :: xs) ≠ [] := by
  rw [pyChunks_cons cs hcs]
  exact List.cons_ne_nil _ _

/-- Concatenating the chunks gives back the rows, in order. -/
theorem pyChunks_flatten (cs : Nat) (hcs : cs ≠ 0) (xs : List α) :
    (pyChunks cs xs).flatten = xs := by
  have key : ∀ (fuel : Nat) (ys : List α), ys.length ≤ fuel →
      (pyChunksF fuel cs ys).flatten = ys := by
    intro fuel
    induction fuel with
    | zero =>
      intro ys h
      rw [List.length_eq_zero.mp (Nat.le_zero.mp h), pyChunksF_nil]
      rfl
    | succ n ih =>
      intro ys h
      cases ys with
      | nil => rw [pyChunksF_nil]; rfl
      | cons y ys' =>
        simp only [pyChunksF, List.flatten_cons]
        rw [ih]
        · exact List.take_append_drop cs (y :: ys')
        · simp only [List.length_drop, List.length_cons]
          simp only [List.length_cons] at h
          omega
  unfold pyChunks
  rw [if_neg hcs]
  exact key xs.length xs (Nat.le_refl _)

/-- Ceiling-division step: adding one chunk of size `cs` advances the
count by one. -/
theorem ceil_step (cs B : Nat) (hcs : cs ≠ 0) (hB : 1 ≤ B) :
    (B - cs + cs - 1) / cs + 1 = (B + cs - 1) / cs := by
  rcases Nat.lt_or_ge B cs with h | h
  · have h1 : B - cs + cs - 1 = cs - 1 := by omega
    rw [h1, Nat.div_eq_of_lt (by omega)]
    have h3 : (B + cs - 1) / cs = 1 := Nat.div_eq_of_lt_le (by omega) (by omega)
    rw [h3]
  · have h1 : B - cs + cs - 1 = B - 1 := by omega
    have h2 : B + cs - 1 = (B - 1) + cs := by omega
    rw [h1, h2, Nat.add_div_right _ (Nat.pos_of_ne_zero hcs)]

/-- The number of chunks is the ceiling of `length / cs`. -/
theorem pyChunks_length (cs : Nat) (hcs : cs ≠ 0) (xs : List α) :
    (pyChunks cs xs).length = (xs.length + cs - 1) / cs := by
  have key : ∀ (fuel : Nat) (ys : List α), ys.length ≤ fuel →
      (pyChunksF fuel cs ys).length = (ys.length + cs - 1) / cs := by
    intro fuel
    induction fuel with
    | zero =>
      intro ys h
      rw [List.length_eq_zero.mp (Nat.le_zero.mp h), pyChunksF_nil]
      simp only [List.length_nil]
      rw [Nat.div_eq_of_lt (by omega)]
    | succ n ih =>
      intro ys h
      cases ys with
      | nil =>
        rw [pyChunksF_nil]
        simp only [List.length_nil]
        rw [Nat.div_eq_of_lt (by omega)]
      | cons y ys' =>
        simp only [pyChunksF, List.length_cons]
        rw [ih ((y :: ys').drop cs)
          (by simp only [List.length_cons] at h
              simp only [List.length_drop, List.length_cons]
              omega)]
        simp only [List.length_drop, List.length_cons]
        exact ceil_step cs (ys'.length + 1) hcs (by omega)
  unfold pyChunks
  rw [if_neg hcs]
  exact key xs.length xs (Nat.le_refl _)

/-- Chunk `i` is the slice starting at offset `i * cs`. -/
theorem pyChunks_getElem (cs : Nat) (hcs : cs ≠ 0) (xs : List α) (i : Nat)
    (hi : i < (pyChunks cs xs).length) :
    (pyChunks cs xs)[i]? = some ((xs.drop (i * cs)).take cs) := by
  have key : ∀ (fuel : Nat) (ys : List α) (j : Nat), ys.length ≤ fuel →
      j < (pyChunksF fuel cs ys).length →
      (pyChunksF fuel cs ys)[j]? = some ((ys.drop (j * cs)).take cs) := by
    intro fuel
    induction fuel with
    | zero =>
      intro ys j h hj
      rw [List.length_eq_zero.mp (Nat.le_zero.mp h), pyChunksF_nil] at hj
      simp at hj
    | succ n ih =>
      intro ys j h hj
      cases ys with
      | nil => rw [pyChunksF_nil] at hj; simp at hj
      | cons y ys' =>
        cases j with
        | zero =>
          simp only [pyChunksF, List.getElem?_cons_zero, Nat.zero_mul, List.drop_zero]
        | succ j' =>
          simp only [pyChunksF, List.getElem?_cons_succ]
          simp only [pyChunksF, List.length_cons, Nat.succ_lt_succ_iff] at hj
          rw [ih ((y :: ys').drop cs) j'
            (by simp only [List.length_cons] at h
                simp only [List.length_drop, List.length_cons]
                omega)
            hj]
          rw [List.drop_drop]
          have harith : cs + j' * cs = (j' + 1) * cs := by ring
          rw [harith]
  unfold pyChunks at hi ⊢
  rw [if_neg hcs] at hi ⊢
  exact key xs.length xs i (Nat.le_refl _) hi

/-- Every chunk except possibly the last has exactly `cs` rows. -/
theorem pyChunks_middle_length (cs : Nat) (hcs : cs ≠ 0) (xs : List α) (i : Nat)
    (hi : i + 1 < (pyChunks cs xs).length) :
    ∃ c, (pyChunks cs xs)[i]? = some c ∧ c.length = cs := by
  have hi' : i < (pyChunks cs xs).length := Nat.lt_of_succ_lt hi
  refine ⟨(xs.drop (i * cs)).take cs, pyChunks_getElem cs hcs xs i hi', ?_⟩
  rw [List.length_take, List.length_drop]
  rw [pyChunks_length cs hcs] at hi
  have h2 : i + 2 ≤ (xs.length + cs - 1) / cs := hi
  have h3 : (i + 2) * cs ≤ xs.length + cs - 1 :=
    (Nat.le_div_iff_mul_le (Nat.pos_of_ne_zero hcs)).mp h2
  have h4 : (i + 2) * cs = i * cs + 2 * cs := by ring
  rw [h4] at h3
  generalize i * cs = m at *
  omega

/-- The last chunk has `length % cs` rows when that is nonzero, else `cs`. -/
theorem pyChunks_last_length (cs : Nat) (hcs : cs ≠ 0) (xs : List α) (hne : xs ≠ []) :
    (pyChunks cs xs).getLast?.map List.length =
      some (if xs.length % cs = 0 then cs else xs.length % cs) := by
  have key : ∀ (fuel : Nat) (ys : List α), ys.length ≤ fuel → ys ≠ [] →
      (pyChunksF fuel cs ys).getLast?.map List.length =
        some (if ys.length % cs = 0 then cs else ys.length % cs) := by
    intro fuel
    induction fuel with
    | zero =>
      intro ys h hne'
      exact absurd (List.length_eq_zero.mp (Nat.le_zero.mp h)) hne'
    | succ n ih =>
      intro ys h hne'
      cases ys with
      | nil => exact absurd rfl hne'
      | cons y ys' =>
        simp only [List.length_cons] at h
        rcases Nat.lt_or_ge (ys'.length + 1) (cs + 1) with hle | hgt
        · -- all rows fit in the single first chunk
          have hdrop : (y :: ys').drop cs = [] := by
            rw [List.drop_eq_nil_iff]
            simp only [List.length_cons]
            omega
          simp only [pyChunksF, hdrop, pyChunksF_nil]
          simp only [List.getLast?_singleton, Option.map_some']
          congr 1
          rw [List.length_take, List.length_cons]
          rcases Nat.lt_or_ge (ys'.length + 1) cs with hlt | heq
          · rw [Nat.mod_eq_of_lt hlt, if_neg (by omega)]
            omega
          · have hcseq : ys'.length + 1 = cs := by omega
            rw [hcseq]
            simp [Nat.mod_self]
        · -- more than one chunk: recurse on the dropped suffix
          have hdropne : (y :: ys').drop cs ≠ [] := by
            intro hd
            have := List.drop_eq_nil_iff.mp hd
            simp only [List.length_cons] at this
            omega
          have hrec := ih ((y :: ys').drop cs)
            (by simp only [List.length_drop, List.length_cons]; omega) hdropne
          have hmod : ((y :: ys').drop cs).length % cs = (ys'.length + 1) % cs := by
            simp only [List.length_drop, List.length_cons]
            conv_rhs => rw [← Nat.sub_add_cancel (by omega : cs ≤ ys'.length + 1)]
            rw [Nat.add_mod_right]
          rw [hmod] at hrec
          have htail : pyChunksF n cs ((y :: ys').drop cs) ≠ [] := by
            intro hpe
            rw [hpe] at hrec
            simp at hrec
          obtain ⟨a, l, hl⟩ := List.exists_cons_of_ne_nil htail
          simp only [pyChunksF]
          rw [hl, List.getLast?_cons_cons]
          rw [hl] at hrec
          simp only [List.length_cons]
          exact hrec
  unfold pyChunks
  rw [if_neg hcs]
  cases xs with
  | nil => exact absurd rfl hne
  | cons x xs' => exact key _ _ (Nat.le_refl _) (List.cons_ne_nil _ _)

/-! ## Lemmas about the chunk-insert loop -/

namespace DatabaseManager

/-- When every insert call from index `k` on succeeds, the loop commits
every chunk in order and returns the accumulated row count. -/
theorem loadChunks_ok (oracle : DriverOracle) (table : String) (cols : List String) :
    ∀ (chunks : List (List Row)) (k total : Nat),
      (∀ i, i < chunks.length → oracle (k + i) = none) →
      loadChunks oracle table cols chunks k total =
        (.ok (total + (chunks.map List.length).sum),
         chunks.map fun c => .insertRows table cols c) := by
  intro chunks
  induction chunks with
  | nil => intro k total _; simp [loadChunks]
  | cons c rest ih =>
    intro k total hok
    have h0 : oracle k = none := by
      have := hok 0 (by simp)
      simpa using this
    simp only [loadChunks, h0, insert_dataframe]
    rw [ih (k + 1) (total + c.length)
      (by intro i hi
          have := hok (i + 1) (by simp only [List.length_cons]; omega)
          have harith : k + (i + 1) = k + 1 + i := by omega
          rw [harith] at this
          exact this)]
    simp only [List.map_cons, List.sum_cons]
    have harith : total + c.length + (List.map List.length rest).sum =
        total + (c.length + (List.map List.length rest).sum) := by omega
    rw [harith]

/-- When the insert call at relative index `j` fails (and the ones before
it succeed), the loop commits exactly the first `j` chunks, never reaches
the later ones, and surfaces the wrapped driver error. -/
theorem loadChunks_fail (oracle : DriverOracle) (table : String) (cols : List String)
    (msg : String) :
    ∀ (chunks : List (List Row)) (j k total : Nat),
      j < chunks.length →
      (∀ i, i < j → oracle (k + i) = none) →
      oracle (k + j) = some msg →
      loadChunks oracle table cols chunks k total =
        (.error (.databaseError ("Failed to insert data: " ++ msg)),
         (chunks.take j).map fun c => .insertRows table cols c) := by
  intro chunks
  induction chunks with
  | nil => intro j k total hj _ _; simp at hj
  | cons c rest ih =>
    intro j k total hj hok hfail
    cases j with
    | zero =>
      simp only [Nat.add_zero] at hfail
      simp [loadChunks, hfail, insert_dataframe]
    | succ j' =>
      have h0 : oracle k = none := by
        have := hok 0 (by omega)
        simpa using this
      simp only [loadChunks, h0, insert_dataframe]
      rw [ih j' (k + 1) (total + c.length)
        (by simp only [List.length_cons] at hj; omega)
        (by intro i hi
            have := hok (i + 1) (by omega)
            have harith : k + (i + 1) = k + 1 + i := by omega
            rw [harith] at this
            exact this)
        (by have harith : k + (j' + 1) = k + 1 + j' := by omega
            rw [harith] at hfail
            exact hfail)]
      simp [List.take_cons]

end DatabaseManager

namespace DatabaseManager

/-- Every event emitted by the chunk-insert loop is an insert. -/
theorem loadChunks_events_no_create (oracle : DriverOracle) (table : String)
    (cols : List String) :
    ∀ (chunks : List (List Row)) (k total : Nat),
      ∀ e ∈ (loadChunks oracle table cols chunks k total).2, e.isCreate = false := by
  intro chunks
  induction chunks with
  | nil => intro k total e he; simp [loadChunks] at he
  | cons c rest ih =>
    intro k total e he
    cases horacle : oracle k with
    | some m => simp [loadChunks, horacle, insert_dataframe] at he
    | none =>
      simp only [loadChunks, horacle, insert_dataframe] at he
      rcases List.mem_cons.mp he with rfl | hm
      · rfl
      · exact ih (k + 1) (total + c.length) e hm

end DatabaseManager

/-- C1: load_data_in_chunks partitions the rows into contiguous batches in
original row order taken at start offsets 0, cs, 2*cs, ...; the batch
count equals ceil(N / cs); every batch except possibly the last has
exactly cs rows; when N is nonzero the last batch has N mod cs rows if
that is nonzero, else cs; the sizes sum to N; and when every insertion
succeeds the returned total equals N. -/
theorem load_data_in_chunks_partitions (rows : List Row) (cs : Nat) (hcs : 1 ≤ cs) :
    (pyChunks cs rows).length = (rows.length + cs - 1) / cs ∧
    (pyChunks cs rows).flatten = rows ∧
    (∀ i, i < (pyChunks cs rows).length →
      (pyChunks cs rows)[i]? = some ((rows.drop (i * cs)).take cs)) ∧
    (∀ i, i + 1 < (pyChunks cs rows).length →
      ∃ c, (pyChunks cs rows)[i]? = some c ∧ c.length = cs) ∧
    (rows ≠ [] → (pyChunks cs rows).getLast?.map List.length =
      some (if rows.length % cs = 0 then cs else rows.length % cs)) ∧
    ((pyChunks cs rows).map List.length).sum = rows.length ∧
    (∀ (cols : List String) (table if_exists : String)
        (oracle : DatabaseManager.DriverOracle),
      (∀ k, oracle k = none) →
      (DatabaseManager.load_data_in_chunks (some ()) oracle ⟨cols, rows⟩
          table cs if_exists).result = .ok rows.length) := by
  have hcs' : cs ≠ 0 := by omega
  have hsum : ((pyChunks cs rows).map List.length).sum = rows.length := by
    rw [← List.length_flatten, pyChunks_flatten cs hcs']
  refine ⟨pyChunks_length cs hcs' rows, pyChunks_flatten cs hcs' rows,
    fun i hi => pyChunks_getElem cs hcs' rows i hi,
    fun i hi => pyChunks_middle_length cs hcs' rows i hi,
    fun hne => pyChunks_last_length cs hcs' rows hne, hsum, ?_⟩
  intro cols table if_exists oracle hor
  simp only [DatabaseManager.load_data_in_chunks]
  rw [DatabaseManager.loadChunks_ok oracle table _ _ 0 0 (fun i _ => hor _)]
  simp only [Except.mapError]
  rw [hsum, Nat.zero_add]

/-- Witness for C1 at a concrete five-row dataset with chunk size two. -/
theorem load_data_in_chunks_partitions_witness :
    (1 : Nat) ≤ 2 ∧
    (DatabaseManager.load_data_in_chunks (some ()) (fun _ => none)
      ⟨["c"], [["a"], ["b"], ["c"], ["d"], ["e"]]⟩ "t" 2 "append").result = .ok 5 := by
  refine ⟨by decide, ?_⟩
  exact (load_data_in_chunks_partitions [["a"], ["b"], ["c"], ["d"], ["e"]] 2
    (by decide)).2.2.2.2.2.2 ["c"] "t" "append" (fun _ => none) (fun k => rfl)

/-- C2: when insert call k (0-indexed) fails with driver message msg and
the earlier calls succeed, load_data_in_chunks signals DatabaseError and
returns no row count; exactly the batches before k are committed, batch k
contributes no rows, and no batch after k is ever attempted. -/
theorem load_data_in_chunks_partial_failure (rows : List Row) (cols : List String)
    (table if_exists msg : String) (cs k : Nat) (_hcs : 1 ≤ cs)
    (oracle : DatabaseManager.DriverOracle)
    (hk : k < (pyChunks cs rows).length)
    (hok : ∀ i, i < k → oracle i = none) (hfail : oracle k = some msg) :
    (DatabaseManager.load_data_in_chunks (some ()) oracle ⟨cols, rows⟩
        table cs if_exists).result =
      .error (.databaseError
        ("Failed to load data: " ++ ("Failed to insert data: " ++ msg))) ∧
    (DatabaseManager.load_data_in_chunks (some ()) oracle ⟨cols, rows⟩
        table cs if_exists).events =
      DatabaseManager.create_table_if_needed
          ⟨cols.map DatabaseManager.loadCleanCol, rows⟩ table if_exists ++
        ((pyChunks cs rows).take k).map
          (fun c => .insertRows table (cols.map DatabaseManager.loadCleanCol) c) := by
  have hloop := DatabaseManager.loadChunks_fail oracle table
    (cols.map DatabaseManager.loadCleanCol) msg (pyChunks cs rows) k 0 0 hk
    (fun i hi => by simpa using hok i hi) (by simpa using hfail)
  constructor
  · simp only [DatabaseManager.load_data_in_chunks]
    rw [hloop]
    simp [Except.mapError, PyErr.message]
  · simp only [DatabaseManager.load_data_in_chunks]
    rw [hloop]

/-- Witness for C2: five one-row batches, the third insert call fails. -/
theorem load_data_in_chunks_partial_failure_witness :
    (DatabaseManager.load_data_in_chunks (some ())
        (fun k => if k = 2 then some "boom" else none)
        ⟨["c"], [["a"], ["b"], ["c"], ["d"], ["e"]]⟩ "t" 1 "append").result =
      .error (.databaseError
        ("Failed to load data: " ++ ("Failed to insert data: " ++ "boom"))) :=
  (load_data_in_chunks_partial_failure [["a"], ["b"], ["c"], ["d"], ["e"]] ["c"]
    "t" "append" "boom" 1 2 (by decide)
    (fun k => if k = 2 then some "boom" else none)
    (by decide) (by decide) (by decide)).1

/-- C7: with if_exists = 'replace' the very first event is the creation of
the table from the zero-row projection of the column-renamed dataset --
strictly before any insertion; applying that event to any prior table
state yields an empty table, so existing data is not preserved; with
if_exists = 'append' no schema action is taken. -/
theorem create_table_policy (data : DataFrame) (table : String) (cs : Nat)
    (oracle : DatabaseManager.DriverOracle) :
    ((DatabaseManager.load_data_in_chunks (some ()) oracle data table cs
        "replace").events.head? =
      some (.createTable table ⟨data.cols.map DatabaseManager.loadCleanCol, []⟩)) ∧
    (∀ e ∈ (DatabaseManager.load_data_in_chunks (some ()) oracle data table cs
        "replace").events.tail, e.isCreate = false) ∧
    (∀ t, applyEvent t
        (.createTable table ⟨data.cols.map DatabaseManager.loadCleanCol, []⟩) =
      some ⟨data.cols.map DatabaseManager.loadCleanCol, []⟩) ∧
    (∀ e ∈ (DatabaseManager.load_data_in_chunks (some ()) oracle data table cs
        "append").events, e.isCreate = false) := by
  refine ⟨?_, ?_, fun t => rfl, ?_⟩
  · simp [DatabaseManager.load_data_in_chunks, DatabaseManager.create_table_if_needed,
      DataFrame.head0]
  · intro e he
    simp only [DatabaseManager.load_data_in_chunks,
      DatabaseManager.create_table_if_needed, DataFrame.head0] at he
    simp at he
    exact DatabaseManager.loadChunks_events_no_create oracle table _ _ 0 0 e he
  · intro e he
    simp only [DatabaseManager.load_data_in_chunks,
      DatabaseManager.create_table_if_needed] at he
    simp at he
    exact DatabaseManager.loadChunks_events_no_create oracle table _ _ 0 0 e he

/-- Witness for C7 at a concrete dataset. -/
theorem create_table_policy_witness :
    (DatabaseManager.load_data_in_chunks (some ()) (fun _ => none)
        ⟨["A B"], [["x"]]⟩ "t" 1 "replace").events.head? =
      some (.createTable "t" ⟨["a_b"], []⟩) := by
  have h := (create_table_policy ⟨["A B"], [["x"]]⟩ "t" 1 (fun _ => none)).1
  rw [h]
  decide

/-- C10: with the engine field unset -- before any successful connect, and
in particular right after close() -- load_data_in_chunks raises
DatabaseError("Database connection not initialized") and performs no
column renaming, no table creation and no insertion: the data is returned
unchanged and the event trace is empty. -/
theorem load_data_in_chunks_uninitialized (e : Option Unit)
    (oracle : DatabaseManager.DriverOracle) (data : DataFrame)
    (table : String) (cs : Nat) (if_exists : String) :
    DatabaseManager.close e = none ∧
    DatabaseManager.load_data_in_chunks none oracle data table cs if_exists =
      { result := .error (.databaseError "Database connection not initialized"),
        data := data, events := [] } :=
  ⟨rfl, rfl⟩

/-! ## Configuration loading (ConfigManager) -/

/-- A parsed INI file as configparser presents it: named sections, each a
list of key/value pairs (configparser lower-cases keys on read). -/
structure IniFile where
  sections : List (String × List (String × String))
deriving DecidableEq

/-- Python `int(s)` on a decimal string literal: optional surrounding
whitespace, optional sign, then digits optionally separated by single
underscores (PEP 515); `none` models the ValueError raise. -/
def pyIntDigits : Nat → List Char → Option Nat
  | acc, [] => some acc
  | acc, '_' :: c :: rest =>
    if c.isDigit then pyIntDigits (acc * 10 + (c.toNat - 48)) rest else none
  | acc, c :: rest =>
    if c.isDigit then pyIntDigits (acc * 10 + (c.toNat - 48)) rest else none

def pyIntNat : List Char → Option Nat
  | [] => none
  | c :: rest => if c.isDigit then pyIntDigits (c.toNat - 48) rest else none

def pyInt (s : String) : Option Int :=
  let l := ((s.data.dropWhile Char.isWhitespace).reverse.dropWhile
    Char.isWhitespace).reverse
  match l with
  | '+' :: rest => (pyIntNat rest).map Int.ofNat
  | '-' :: rest => (pyIntNat rest).map fun n => -(n : Int)
  | rest => (pyIntNat rest).map Int.ofNat

/-- The `DatabaseConfig` dataclass (csv_to_rds.py lines 46-61). -/
structure DatabaseConfig where
  host : String
  port : Int
  database : String
  username : String
  password : String
deriving DecidableEq

namespace ConfigManager

def requiredFields : List String := ["host", "port", "database", "username", "password"]

/-- The first required field absent from the RDS section, if any
(the source checks the fields in this order). -/
def firstMissing (rds : List (String × String)) : Option String :=
  requiredFields.find? fun f => (rds.lookup f).isNone

/-- `load_database_config` (csv_to_rds.py lines 72-107).  `src` is the
configuration source: `none` when `os.path.exists(config_path)` is false,
otherwise the parsed INI file.  The function performs no database or
network operation. -/
def load_database_config (src : Option IniFile) (config_path : String) :
    Except PyErr DatabaseConfig :=
  match src with
  | none => .error (.configurationError ("Configuration file not found: " ++ config_path))
  | some f =>
    match f.sections.lookup "RDS" with
    | none => .error (.configurationError "RDS section missing in configuration")
    | some rds =>
      match firstMissing rds with
      | some fld => .error (.configurationError ("Missing required field: " ++ fld))
      | none =>
        match pyInt ((rds.lookup "port").getD "") with
        | none => .error (.configurationError
            ("Invalid configuration value: invalid literal for int() with base 10: "
              ++ (rds.lookup "port").getD ""))
        | some p => .ok
            { host := (rds.lookup "host").getD ""
              port := p
              database := (rds.lookup "database").getD ""
              username := (rds.lookup "username").getD ""
              password := (rds.lookup "password").getD "" }

end ConfigManager

/-- `firstMissing` is `none` exactly when every required field is present. -/
theorem firstMissing_eq_none_iff (rds : List (String × String)) :
    ConfigManager.firstMissing rds = none ↔
      ∀ f ∈ ConfigManager.requiredFields, (rds.lookup f).isSome := by
  unfold ConfigManager.firstMissing
  rw [List.find?_eq_none]
  refine forall₂_congr fun f _ => ?_
  cases rds.lookup f <;> simp

/-- C3: `load_database_config` fails with ConfigurationError exactly when
the file is missing, the RDS section is absent, one of the five required
fields is absent, or the port value does not parse as an integer; every
error it raises is a ConfigurationError, and on success the returned
descriptor's five fields exactly match the values in the source (the port
being the parsed integer).  The function contains no network operation at
all, so in particular none is attempted on the failure paths. -/
theorem load_database_config_spec (src : Option IniFile) (path : String) :
    ((∃ m, ConfigManager.load_database_config src path =
        .error (.configurationError m)) ↔
      (src = none ∨
        ∃ f, src = some f ∧
          (f.sections.lookup "RDS" = none ∨
            ∃ rds, f.sections.lookup "RDS" = some rds ∧
              ((∃ fld ∈ ConfigManager.requiredFields, rds.lookup fld = none) ∨
                pyInt ((rds.lookup "port").getD "") = none)))) ∧
    (∀ e, ConfigManager.load_database_config src path = .error e →
      ∃ m, e = .configurationError m) ∧
    (∀ dc, ConfigManager.load_database_config src path = .ok dc →
      ∃ f rds, src = some f ∧ f.sections.lookup "RDS" = some rds ∧
        rds.lookup "host" = some dc.host ∧
        pyInt ((rds.lookup "port").getD "") = some dc.port ∧
        rds.lookup "database" = some dc.database ∧
        rds.lookup "username" = some dc.username ∧
        rds.lookup "password" = some dc.password) := by
  refine ⟨⟨?_, ?_⟩, ?_, ?_⟩
  · -- error implies one of the four failure conditions
    rintro ⟨m, hm⟩
    cases src with
    | none => exact Or.inl rfl
    | some f =>
      right
      refine ⟨f, rfl, ?_⟩
      cases hR : f.sections.lookup "RDS" with
      | none => exact Or.inl rfl
      | some rds =>
        right
        refine ⟨rds, rfl, ?_⟩
        cases hM : ConfigManager.firstMissing rds with
        | some fld =>
          left
          refine ⟨fld, List.mem_of_find?_eq_some hM, ?_⟩
          have := List.find?_some hM
          simpa using this
        | none =>
          cases hP : pyInt ((rds.lookup "port").getD "") with
          | none => exact Or.inr rfl
          | some p =>
            exfalso
            simp [ConfigManager.load_database_config, hR, hM, hP] at hm
  · -- each failure condition produces a ConfigurationError
    intro hcond
    rcases hcond with rfl | ⟨f, rfl, hrest⟩
    · exact ⟨_, rfl⟩
    · rcases hrest with hR | ⟨rds, hR, hrest2⟩
      · exact ⟨"RDS section missing in configuration",
          by simp [ConfigManager.load_database_config, hR]⟩
      · cases hM : ConfigManager.firstMissing rds with
        | some fld => exact ⟨"Missing required field: " ++ fld,
            by simp [ConfigManager.load_database_config, hR, hM]⟩
        | none =>
          rcases hrest2 with ⟨fld, hmem, hnone⟩ | hP
          · exfalso
            have := (firstMissing_eq_none_iff rds).mp hM fld hmem
            rw [hnone] at this
            simp at this
          · exact ⟨"Invalid configuration value: invalid literal for int() with base 10: "
                ++ (rds.lookup "port").getD "",
              by simp [ConfigManager.load_database_config, hR, hM, hP]⟩
  · -- every raised error is a ConfigurationError
    intro e he
    cases src with
    | none =>
      simp only [ConfigManager.load_database_config] at he
      exact ⟨_, ((Except.error.injEq _ _).mp he).symm⟩
    | some f =>
      cases hR : f.sections.lookup "RDS" with
      | none =>
        simp only [ConfigManager.load_database_config, hR] at he
        exact ⟨_, ((Except.error.injEq _ _).mp he).symm⟩
      | some rds =>
        cases hM : ConfigManager.firstMissing rds with
        | some fld =>
          simp only [ConfigManager.load_database_config, hR, hM] at he
          exact ⟨_, ((Except.error.injEq _ _).mp he).symm⟩
        | none =>
          cases hP : pyInt ((rds.lookup "port").getD "") with
          | none =>
            simp only [ConfigManager.load_database_config, hR, hM, hP] at he
            exact ⟨_, ((Except.error.injEq _ _).mp he).symm⟩
          | some p =>
            simp [ConfigManager.load_database_config, hR, hM, hP] at he
  · -- on success the descriptor matches the source exactly
    intro dc hdc
    cases src with
    | none => simp [ConfigManager.load_database_config] at hdc
    | some f =>
      cases hR : f.sections.lookup "RDS" with
      | none => simp [ConfigManager.load_database_config, hR] at hdc
      | some rds =>
        cases hM : ConfigManager.firstMissing rds with
        | some fld => simp [ConfigManager.load_database_config, hR, hM] at hdc
        | none =>
          cases hP : pyInt ((rds.lookup "port").getD "") with
          | none => simp [ConfigManager.load_database_config, hR, hM, hP] at hdc
          | some p =>
            simp only [ConfigManager.load_database_config, hR, hM, hP] at hdc
            have hall := (firstMissing_eq_none_iff rds).mp hM
            obtain ⟨vh, hh⟩ := Option.isSome_iff_exists.mp (hall "host" (by decide))
            obtain ⟨vd, hd⟩ := Option.isSome_iff_exists.mp (hall "database" (by decide))
            obtain ⟨vu, hu⟩ := Option.isSome_iff_exists.mp (hall "username" (by decide))
            obtain ⟨vp, hp⟩ := Option.isSome_iff_exists.mp (hall "password" (by decide))
            have hdc' := ((Except.ok.injEq _ _).mp hdc)
            refine ⟨f, rds, rfl, hR, ?_, ?_, ?_, ?_, ?_⟩
            · rw [hh, ← hdc']
              simp [hh]
            · rw [← hdc']
              exact hP
            · rw [hd, ← hdc']
              simp [hd]
            · rw [hu, ← hdc']
              simp [hu]
            · rw [hp, ← hdc']
              simp [hp]

/-- Witness for C3: a missing source file yields a ConfigurationError, and
a complete valid source yields the matching descriptor. -/
theorem load_database_config_spec_witness :
    ∃ m, ConfigManager.load_database_config none "config.ini" =
      .error (.configurationError m) :=
  (load_database_config_spec none "config.ini").1.mpr (Or.inl rfl)

/-! ## Connection management (DatabaseManager.connect) -/

namespace DatabaseManager

/-- `connect` (csv_to_rds.py lines 118-159).  The SQLAlchemy engine is
created first and stored in `self._engine`; only then is liveness
verified by a direct `pymysql.connect` round trip, modelled by
`verifyRes` (`none` = the verification connection opens and is closed
again, `some msg` = the driver raises with message `msg`).  The returned
pair is (call result, value of the `_engine` field after the call). -/
def connect (verifyRes : Option String) : Except PyErr Unit × Option Unit :=
  let engine : Option Unit := some ()
  match verifyRes with
  | none => (.ok (), engine)
  | some m => (.error (.databaseError ("Failed to connect to database: " ++ m)), engine)

end DatabaseManager

/-- C8 counterexample: the claim says that after a failed liveness
verification the manager holds no usable connection, but `connect` stores
the engine in `self._engine` before verifying and the except branch never
disposes or resets it: after the failure the `_engine` field is still
set, and a subsequent `load_data_in_chunks` does not report
"Database connection not initialized". -/
theorem connect_failure_counterexample :
    (DatabaseManager.connect (some "boom")).1 =
      .error (.databaseError "Failed to connect to database: boom") ∧
    (DatabaseManager.connect (some "boom")).2 ≠ none ∧
    (DatabaseManager.load_data_in_chunks (DatabaseManager.connect (some "boom")).2
        (fun _ => none) ⟨["c"], [["x"]]⟩ "t" 1 "append").result ≠
      .error (.databaseError "Database connection not initialized") := by
  refine ⟨by decide, by decide, by decide⟩

/-- C8 (amended): when the liveness verification round trip fails,
`connect` signals DatabaseError wrapping the driver message and returns
no connection to the caller; the verification connection itself is never
retained (on failure `pymysql.connect` produces no handle, on success it
is closed immediately); however the engine created before verification
remains stored in the manager's `_engine` field -- it is neither disposed
nor reset, so the manager is not left in the uninitialized state. -/
theorem connect_failure_spec (m : String) :
    DatabaseManager.connect (some m) =
      (.error (.databaseError ("Failed to connect to database: " ++ m)), some ()) ∧
    (∀ oracle data table cs if_exists,
      DatabaseManager.load_data_in_chunks (DatabaseManager.connect (some m)).2
          oracle data table cs if_exists =
        DatabaseManager.load_data_in_chunks (some ()) oracle data table cs
          if_exists) :=
  ⟨rfl, fun _ _ _ _ _ => rfl⟩

/-! ## File validation (validate_csv_file) and the loader facade -/

/-- A file-system entry: a regular file with its byte content, or a
directory with its reported `st_size`.  `os.path.exists` is true for
both kinds of entry. -/
inductive FSEntry
  | file (content : String)
  | dir (size : Nat)
deriving DecidableEq

/-- `os.path.getsize`: content length for a regular file, the reported
directory size otherwise. -/
def FSEntry.size : FSEntry → Nat
  | .file c => c.length
  | .dir n => n

/-- The external world seen by the loader: the file system plus the two
pandas parsers as oracles on file content.  `parseHead` models
`pd.read_csv(path, nrows=5)` (`none` = the leading records parse,
`some m` = exception with message `m`); `readFull` models the full
`pd.read_csv(path)`. -/
structure World where
  fs : String → Option FSEntry
  parseHead : String → Option String
  readFull : String → Except String DataFrame

/-- `pd.read_csv` applied to a directory raises IsADirectoryError. -/
def isADirectoryMsg (path : String) : String :=
  "[Errno 21] Is a directory: " ++ path

/-- `validate_csv_file` (csv_to_rds.py lines 267-288): existence check via
`os.path.exists`, then `os.path.getsize == 0`, then a bounded parse of the
first five records. -/
def validate_csv_file (w : World) (path : String) : Bool × String :=
  match w.fs path with
  | none => (false, "File not found: " ++ path)
  | some ent =>
    if ent.size = 0 then (false, "File is empty: " ++ path)
    else
      match ent with
      | .file content =>
        match w.parseHead content with
        | none => (true, "")
        | some m => (false, "Invalid CSV format: " ++ m)
      | .dir _ => (false, "Invalid CSV format: " ++ isADirectoryMsg path)

/-- String prefix test used to state the message-shape claims. -/
def strStartsWith (s pre : String) : Bool :=
  decide (s.data.take pre.data.length = pre.data)

/-- A world containing a single directory entry "d" of the usual nonzero
reported size. -/
def dirWorld : World :=
  { fs := fun p => if p = "d" then some (.dir 4096) else none
    parseHead := fun _ => none
    readFull := fun _ => .error "unused" }

/-- C5 counterexample: the claim says every path that does not resolve to
a regular file is rejected with a message beginning "File not found: ",
but the code only checks `os.path.exists`, which is also true for
directories; an existing directory path falls through to the bounded
parse, which fails with IsADirectoryError, so the message begins
"Invalid CSV format: " instead. -/
theorem validate_csv_file_directory_counterexample :
    dirWorld.fs "d" = some (.dir 4096) ∧
    validate_csv_file dirWorld "d" =
      (false, "Invalid CSV format: " ++ isADirectoryMsg "d") ∧
    strStartsWith (validate_csv_file dirWorld "d").2 "File not found: " = false := by
  refine ⟨rfl, by decide, by decide⟩

/-- C5 (amended): `validate_csv_file` returns (false, "File not found: …")
for every path that does not exist; (false, "File is empty: …") for every
existing entry whose reported size is zero; (false, "Invalid CSV
format: …") when the bounded parse of the first few records fails, which
includes every existing directory of nonzero reported size; and
(true, "") exactly when the path is a nonempty regular file whose leading
records parse successfully. -/
theorem validate_csv_file_spec (w : World) (path : String) :
    (w.fs path = none →
      validate_csv_file w path = (false, "File not found: " ++ path)) ∧
    (∀ ent, w.fs path = some ent → ent.size = 0 →
      validate_csv_file w path = (false, "File is empty: " ++ path)) ∧
    (∀ content m, w.fs path = some (.file content) → content.length ≠ 0 →
      w.parseHead content = some m →
      validate_csv_file w path = (false, "Invalid CSV format: " ++ m)) ∧
    (∀ n, w.fs path = some (.dir n) → n ≠ 0 →
      validate_csv_file w path =
        (false, "Invalid CSV format: " ++ isADirectoryMsg path)) ∧
    (validate_csv_file w path = (true, "") ↔
      ∃ content, w.fs path = some (.file content) ∧ content.length ≠ 0 ∧
        w.parseHead content = none) := by
  refine ⟨?_, ?_, ?_, ?_, ?_⟩
  · intro h
    simp [validate_csv_file, h]
  · intro ent h hz
    simp [validate_csv_file, h, hz]
  · intro content m h hnz hp
    simp [validate_csv_file, h, FSEntry.size, hnz, hp]
  · intro n h hnz
    simp [validate_csv_file, h, FSEntry.size, hnz]
  · constructor
    · intro hv
      cases hfs : w.fs path with
      | none => simp [validate_csv_file, hfs] at hv
      | some ent =>
        cases ent with
        | file content =>
          by_cases hz : content.length = 0
          · simp [validate_csv_file, hfs, FSEntry.size, hz] at hv
          · cases hp : w.parseHead content with
            | none => exact ⟨content, rfl, hz, hp⟩
            | some m => simp [validate_csv_file, hfs, FSEntry.size, hz, hp] at hv
        | dir n =>
          by_cases hz : n = 0
          · simp [validate_csv_file, hfs, FSEntry.size, hz] at hv
          · simp [validate_csv_file, hfs, FSEntry.size, hz] at hv
    · rintro ⟨content, hfs, hnz, hp⟩
      simp [validate_csv_file, hfs, FSEntry.size, hnz, hp]

/-- Witness for C5 (amended): a nonempty well-formed file validates, a
missing path is rejected with "File not found". -/
theorem validate_csv_file_spec_witness :
    validate_csv_file dirWorld "missing.csv" =
      (false, "File not found: " ++ "missing.csv") :=
  (validate_csv_file_spec dirWorld "missing.csv").1 rfl

/-- `pd.read_csv(path)` for the full parse: dispatch on the file-system
entry, delegating the content parse to the `readFull` oracle. -/
def readCsvPath (w : World) (path : String) : Except String DataFrame :=
  match w.fs path with
  | some (.file content) => w.readFull content
  | some (.dir _) => .error (isADirectoryMsg path)
  | none => .error ("[Errno 2] No such file or directory: " ++ path)

/-- State of a CSVtoRDSLoader: `db_manager` is None until initialized;
once constructed it carries the manager's `_engine` field. -/
structure LoaderState where
  dbm : Option (Option Unit)
deriving DecidableEq

namespace CSVtoRDSLoader

/-- `load_file` (csv_to_rds.py lines 335-382): validate the path, parse
the full file, reject an empty DataFrame, clean the column labels,
lazily run the ConfigManager/DatabaseManager initialization when no
manager exists yet, and delegate to `load_data_in_chunks` with the
default 'append' policy.  Returns (result, loader state after the call,
committed database events). -/
def load_file (w : World) (cfgSrc : Option IniFile) (config_path : String)
    (verifyRes : Option String) (oracle : DatabaseManager.DriverOracle)
    (st : LoaderState) (csv_path table_name : String) (chunk_size : Nat) :
    Except PyErr Nat × LoaderState × List DBEvent :=
  let v := validate_csv_file w csv_path
  if v.1 = false then (.error (.validationError v.2), st, [])
  else
    match readCsvPath w csv_path with
    | .error m => (.error (.foreignError m), st, [])
    | .ok df =>
      if df.emptyDf then
        (.error (.validationError "CSV file contains no data"), st, [])
      else
        let df' : DataFrame := { cols := clean_column_names df.cols, rows := df.rows }
        match st.dbm with
        | some eng =>
          let out := DatabaseManager.load_data_in_chunks eng oracle df'
            table_name chunk_size "append"
          (out.result, st, out.events)
        | none =>
          match ConfigManager.load_database_config cfgSrc config_path with
          | .error e => (.error e, st, [])
          | .ok _ =>
            let c := DatabaseManager.connect verifyRes
            match c.1 with
            | .error e => (.error e, { dbm := some c.2 }, [])
            | .ok _ =>
              let out := DatabaseManager.load_data_in_chunks c.2 oracle df'
                table_name chunk_size "append"
              (out.result, { dbm := some c.2 }, out.events)

end CSVtoRDSLoader

/-- C6: when the pre-validation check passes but the full parse yields a
DataFrame with zero data rows, load_file raises
ValidationError("CSV file contains no data"), performs no database
action (no insertion, no table creation, not even the lazy
initialization), and leaves the loader state unchanged. -/
theorem load_file_no_data (w : World) (cfgSrc : Option IniFile)
    (config_path : String) (verifyRes : Option String)
    (oracle : DatabaseManager.DriverOracle) (st : LoaderState)
    (csv_path table_name : String) (chunk_size : Nat)
    (hvalid : (validate_csv_file w csv_path).1 = true)
    (df : DataFrame) (content : String)
    (hfs : w.fs csv_path = some (.file content))
    (hread : w.readFull content = .ok df) (hrows : df.rows = []) :
    CSVtoRDSLoader.load_file w cfgSrc config_path verifyRes oracle st
        csv_path table_name chunk_size =
      (.error (.validationError "CSV file contains no data"), st, []) := by
  simp [CSVtoRDSLoader.load_file, hvalid, readCsvPath, hfs, hread,
    DataFrame.emptyDf, hrows]

/-- A world containing a single header-only CSV file "f": the bounded
parse succeeds and the full parse yields two columns and zero rows. -/
def headerOnlyWorld : World :=
  { fs := fun p => if p = "f" then some (.file "h1,h2\n") else none
    parseHead := fun _ => none
    readFull := fun _ => .ok ⟨["h1", "h2"], []⟩ }

/-- Witness for C6: a header-only file is rejected after the full parse
with "CSV file contains no data" and no database action. -/
theorem load_file_no_data_witness :
    CSVtoRDSLoader.load_file headerOnlyWorld none "config.ini" none
        (fun _ => none) ⟨none⟩ "f" "t" 1000 =
      (.error (.validationError "CSV file contains no data"), ⟨none⟩, []) :=
  load_file_no_data headerOnlyWorld none "config.ini" none (fun _ => none)
    ⟨none⟩ "f" "t" 1000 (by decide) ⟨["h1", "h2"], []⟩ "h1,h2\n"
    (by decide) rfl rfl
